import Mathlib

/-!
Verification of the retrieval-augmented incident notification pipeline
(backend/agent): a shallow embedding of the Python sources
`agent.py`, `handlers.py`, `llm_client.py`, `notifier.py`, `db.py`,
`retriever_pgvector.py`, together with theorems settling the frozen
behavioural claims about them.

External collaborators (the relational engine, the Slack transport, the
embedding and generative models, the JSON library) are passed in as
explicit parameters; everything the repository itself computes is
translated faithfully from the source.
-/

namespace Agent

/-! ## A small model of Python runtime values

The handlers receive decoded JSON payloads, so the value universe is the
JSON one: integers, booleans, strings, `None`, lists and (string-keyed)
dicts.  Floats are not modelled; no claim depends on them. -/

inductive PVal where
  | pint (n : Int)
  | pbool (b : Bool)
  | pstr (s : String)
  | pnone
  | plist (l : List PVal)
  | pdict (entries : List (String × PVal))

/-- Python truthiness (`bool(x)`): zero, `False`, empty string/list/dict
and `None` are falsy. -/
def truthy : PVal → Bool
  | .pint n => n != 0
  | .pbool b => b
  | .pstr s => s != ""
  | .pnone => false
  | .plist l => !l.isEmpty
  | .pdict es => !es.isEmpty

/-- Python `isinstance(x, int)`; `bool` is a subclass of `int`. -/
def isInstInt : PVal → Bool
  | .pint _ => true
  | .pbool _ => true
  | _ => false

/-- Python `isinstance(x, str)`. -/
def isInstStr : PVal → Bool
  | .pstr _ => true
  | _ => false

/-- Value of an integer-classed Python object (callers guard with
`isInstInt`). -/
def pyIntOf : PVal → Int
  | .pint n => n
  | .pbool b => if b then 1 else 0
  | _ => 0

/-- String content of a Python object as used after an `isinstance(str)`
guard (other cases approximate `str(x)` and are never reached by the
guarded callers). -/
def pyStrOf : PVal → String
  | .pstr s => s
  | .pint n => toString n
  | .pbool b => if b then "True" else "False"
  | .pnone => "None"
  | _ => "<obj>"

/-- Value of a decimal digit character, `none` otherwise. -/
def digitVal (c : Char) : Option Nat :=
  if c.isDigit then some (c.toNat - '0'.toNat) else none

/-- Accumulate a non-empty all-digit suffix into a natural number. -/
def digitsVal : List Char → Option Nat
  | [] => none
  | [c] => digitVal c
  | c :: rest => do
    let d ← digitVal c
    let r ← digitsVal rest
    pure (d * 10 ^ rest.length + r)

/-- Python `s.strip()`: drop whitespace from both ends. -/
def pyStrip (s : String) : String :=
  String.mk (((s.toList.dropWhile Char.isWhitespace).reverse.dropWhile
    Char.isWhitespace).reverse)

/-- Python `int(s)` on a string: surrounding whitespace is stripped, an
optional sign precedes a non-empty digit run.  (Underscore separators,
a Python 3.6 nicety, are not modelled.) -/
def parsePyInt (s : String) : Option Int :=
  match (pyStrip s).toList with
  | [] => none
  | c :: rest =>
    if c = '-' then (digitsVal rest).map (fun v => -(v : Int))
    else if c = '+' then (digitsVal rest).map (fun v => (v : Int))
    else (digitsVal (c :: rest)).map (fun v => (v : Int))

/-- Python `int(x)` as applied by the event handler: succeeds on ints,
bools and integral strings, raises (here: `none`) on `None`, lists and
dicts. -/
def pyToInt : PVal → Option Int
  | .pint n => some n
  | .pbool b => some (if b then 1 else 0)
  | .pstr s => parsePyInt s
  | _ => none

/-! ## String helpers mirroring the Python operations used -/

/-- Left brace and right brace characters (used by the JSON slicing in
`ask_llm`). -/
def lbrace : Char := Char.ofNat 123

def rbrace : Char := Char.ofNat 125

/-- First list is a leading segment of the second. -/
def startsWithChars : List Char → List Char → Bool
  | [], _ => true
  | _ :: _, [] => false
  | a :: as, b :: bs => a == b && startsWithChars as bs

/-- The needle occurs contiguously somewhere in the haystack. -/
def hasSubChars (needle : List Char) : List Char → Bool
  | [] => startsWithChars needle []
  | h :: t => startsWithChars needle (h :: t) || hasSubChars needle t

/-- Python `needle in hay` on strings. -/
def strContains (hay needle : String) : Bool :=
  hasSubChars needle.toList hay.toList

/-- Python `s[:k]` for a non-negative `k`. -/
def pyTake (s : String) (k : Nat) : String :=
  String.mk (s.toList.take k)

/-- Python `s[a:b]` (step 1) with the CPython normalisation of negative
and out-of-range bounds. -/
def pySlice (s : String) (a b : Int) : String :=
  let n : Int := s.toList.length
  let norm : Int → Nat := fun i => (if i < 0 then max (i + n) 0 else min i n).toNat
  String.mk ((s.toList.drop (norm a)).take (norm b - norm a))

/-- Index of the first occurrence of `c` in `s`, `-1` when absent
(Python `s.find(c)`). -/
def idxOfChar (s : String) (c : Char) : Int :=
  match s.toList.indexOf? c with
  | some i => (i : Int)
  | none => -1

/-- Index of the last occurrence of `c` in `s`, `-1` when absent
(Python `s.rfind(c)`). -/
def ridxOfChar (s : String) (c : Char) : Int :=
  match s.toList.reverse.indexOf? c with
  | some i => (s.toList.length : Int) - 1 - (i : Int)
  | none => -1

/-- Replace every occurrence of character `a` by `b`
(Python `s.replace(a, b)` for single characters). -/
def pyReplace (s : String) (a b : Char) : String :=
  String.mk (s.toList.map (fun c => if c == a then b else c))

/-- Characters of Python `s.title()`: an alphabetic character opening a
word is uppercased, later ones lowercased. -/
def titleChars : List Char → Bool → List Char
  | [], _ => []
  | c :: rest, startWord =>
    if c.isAlpha then
      (if startWord then c.toUpper else c.toLower) :: titleChars rest false
    else c :: titleChars rest true

/-- Python `s.title()`. -/
def pyTitle (s : String) : String :=
  String.mk (titleChars s.toList true)

/-- Python `s.lower()` (character-wise, which covers the ASCII summaries
involved). -/
def pyLower (s : String) : String :=
  String.mk (s.toList.map Char.toLower)

/-! ## Diversity key and diversity filter (`handlers.py`)

`_extract_diversity_key` classifies a candidate's summary+service into a
bucket key; the `/semantic-search` endpoint walks the vector-search rows
in similarity order and admits a candidate when its key is new or the
result is still short, stopping at `limit` admitted items. -/

/-- Keyword vocabulary scanned by `_extract_diversity_key` after the
sql/injection family check. -/
def keyTerms : List String :=
  ["auth", "permission", "timeout", "error", "crash", "memory", "performance"]

/-- Faithful translation of `_extract_diversity_key(summary, service)`
(handlers.py lines 20-40). -/
def extract_diversity_key (summary service : String) : String :=
  if summary ≠ "" ∧ service ≠ "" then
    let low := pyLower summary
    if strContains low "sql" || strContains low "injection" then
      if strContains low "union" then service ++ "_sql_union"
      else if strContains low "blind" then service ++ "_sql_blind"
      else if strContains low "time" || strContains low "delay" then service ++ "_sql_time"
      else service ++ "_sql_generic"
    else
      match keyTerms.find? (fun t => strContains low t) with
      | some t => service ++ "_" ++ t
      | none => (if service ≠ "" then service else "unknown") ++ "_general"
  else (if service ≠ "" then service else "unknown") ++ "_general"

/-- Row of the pgvector query inside `/semantic-search`: only the fields
the diversity filter reads are modelled (`summary` and `service` may be
NULL); the passed-through columns do not influence admissions. -/
structure MemRow where
  rid : Nat
  summary : Option String
  service : Option String
deriving DecidableEq

/-- Admitted item, with the NULL-defaulting already applied
(`row[1] or ""`, `row[3] or "unknown"`). -/
structure DivItem where
  rid : Nat
  summary : String
  service : String
deriving DecidableEq

/-- Diversity key of an admitted item. -/
def keyOfItem (x : DivItem) : String := extract_diversity_key x.summary x.service

/-- Python `set.add`. -/
def pyAddSet (s : List String) (k : String) : List String :=
  if k ∈ s then s else k :: s

/-- Number of admitted items sharing diversity key `k`. -/
def countKeyD (l : List DivItem) (k : String) : Nat :=
  (l.filter (fun x => keyOfItem x == k)).length

/-- The admission loop of `/semantic-search` (handlers.py lines 387-413):
`used` is the `used_patterns` set, `results` the accumulator; the walk
stops once `limit` items are admitted. -/
def diversityGo (limit : Nat) : List MemRow → List DivItem → List String → List DivItem
  | [], results, _ => results
  | r :: rest, results, used =>
    if limit ≤ results.length then results
    else
      let summary := r.summary.getD ""
      let service := r.service.getD "unknown"
      let key := extract_diversity_key summary service
      if key ∉ used ∨ results.length < limit / 2 then
        diversityGo limit rest (results ++ [⟨r.rid, summary, service⟩]) (pyAddSet used key)
      else
        diversityGo limit rest results used

/-- Diversity-filtered result list of `/semantic-search`. -/
def semanticSearchFilter (limit : Nat) (rows : List MemRow) : List DivItem :=
  diversityGo limit rows [] []

/-- The admission loop re-expressed with the per-key running count of the
claim's wording (`max_per_key = 1`): a candidate is admitted when fewer
than one already-admitted item shares its key, or the result is still
below `limit / 2`.  Used to check the claim's description against the
set-based source loop. -/
def diversityGoCount (limit : Nat) : List MemRow → List DivItem → List DivItem
  | [], results => results
  | r :: rest, results =>
    if limit ≤ results.length then results
    else
      let summary := r.summary.getD ""
      let service := r.service.getD "unknown"
      let key := extract_diversity_key summary service
      if countKeyD results key < 1 ∨ results.length < limit / 2 then
        diversityGoCount limit rest (results ++ [⟨r.rid, summary, service⟩])
      else
        diversityGoCount limit rest results

/-- Count-based reading of the filter. -/
def semanticFilterSpec (limit : Nat) (rows : List MemRow) : List DivItem :=
  diversityGoCount limit rows []

/-! ## Data model and store (`db.py`)

The relational engine is a collaborator; its tables are carried as a
`DBState` and the mutators of `db.py` become state transformers that also
record a trace of the externally visible operations (status writes, audit
writes, outbound deliveries, ...). -/

/-- Evidence blob of an incident: a dict may carry a `service` field;
non-dict blobs make the pipeline fall back to `"unknown"`. -/
inductive Evidence where
  | edict (service : Option String)
  | eother
  | enull
deriving DecidableEq

/-- Row of the `incidents` table as returned by `get_incident`. -/
structure IncidentRow where
  id : Int
  summary_text : String
  labels : List String
  evidence : Evidence
  status : String
  created_at : String
deriving DecidableEq

/-- Row of the `memory_item` table. -/
structure MemoryItem where
  id : String
  summary : String
  labels : List String
  service : Option String
  incident_type : String
  model : String
  dim : Nat
  solution : Option String
deriving DecidableEq

/-- Row of the append-only `audit_logs` table (details as key-value
pairs, the shape `json.dumps` receives). -/
structure AuditEntry where
  incident_id : Int
  who : String
  action : String
  details : List (String × String)
deriving DecidableEq

/-- Externally visible operations of one pipeline run. -/
inductive TraceOp where
  | fetch (id : Int)
  | search
  | llmCall
  | memWrite (key : String)
  | deliver (channel : String)
  | statusWrite (id : Int) (status : String)
  | auditWrite (action : String)
deriving DecidableEq

/-- The backing store plus the operation trace. -/
structure DBState where
  incidents : List IncidentRow
  audits : List AuditEntry
  memory : List MemoryItem
  slackMessages : List (Int × String)
  trace : List TraceOp
deriving DecidableEq

/-- Empty store. -/
def DBState.empty : DBState := ⟨[], [], [], [], []⟩

/-- Fetch of `get_incident` (db.py lines 99-128): first row with the
given id, `None` when absent or on a storage error. -/
def getIncident (st : DBState) (i : Int) : Option IncidentRow :=
  st.incidents.find? (fun r => r.id == i)

/-- Status of the stored incident `i`, when present. -/
def statusOf (st : DBState) (i : Int) : Option String :=
  (getIncident st i).map (fun r => r.status)

/-- The row update of `update_incident_status`: every row with the given
id gets the new status. -/
def setStatusRows (l : List IncidentRow) (i : Int) (s : String) : List IncidentRow :=
  l.map (fun r => if r.id == i then { r with status := s } else r)

/-- Faithful translation of `update_incident_status(incident_id, status)`
(db.py lines 130-146): argument validation returns `False` without
touching the store; a storage error (`dbUp = false`) is caught and also
yields `False`; otherwise the rows are updated and `True` returned. -/
def update_incident_status (dbUp : Bool) (st : DBState) (idV statusV : PVal) :
    DBState × Bool :=
  if !truthy idV || !isInstInt idV then (st, false)
  else if !truthy statusV || !isInstStr statusV then (st, false)
  else if dbUp then
    let n := pyIntOf idV
    let s := pyStrOf statusV
    ({ st with incidents := setStatusRows st.incidents n s,
               trace := st.trace ++ [TraceOp.statusWrite n s] }, true)
  else (st, false)

/-- Faithful translation of `insert_audit_log(incident_id, who, action,
details)` (db.py lines 148-167): validation and storage failures return
`False` with no mutation, otherwise the entry is appended. -/
def insert_audit_log (dbUp : Bool) (st : DBState) (idV whoV actionV : PVal)
    (details : List (String × String)) : DBState × Bool :=
  if !truthy idV || !isInstInt idV then (st, false)
  else if !truthy whoV || !truthy actionV then (st, false)
  else if dbUp then
    let n := pyIntOf idV
    ({ st with audits := st.audits ++ [⟨n, pyStrOf whoV, pyStrOf actionV, details⟩],
               trace := st.trace ++ [TraceOp.auditWrite (pyStrOf actionV)] }, true)
  else (st, false)

/-! ## Analysis engine (`llm_client.py`)

The generative model and the JSON library are collaborators: the chat
call is an `Except` value (transport/timeout/non-success errors on the
left) and `json.loads` an oracle `String → Option AnalysisResult`
(`none` models a parse exception). -/

/-- One root cause of an analysis. -/
structure RootCause where
  cause : String
  fixes : List String
  rollback : String
deriving DecidableEq

/-- Structured analysis result; `team_assigned` and `incident_type` are
the optional keys the routed sender adds on top. -/
structure AnalysisResult where
  summary : String
  root_causes : List RootCause
  confidence : String
  team_assigned : Option String := none
  incident_type : Option String := none
deriving DecidableEq

/-- Substring between the first brace and the last closing brace,
`text[text.find(lb) : text.rfind(rb)+1]` with Python slice semantics. -/
def jsonSlice (text : String) : String :=
  pySlice text (idxOfChar text lbrace) (ridxOfChar text rbrace + 1)

/-- The fixed manual-review fallback returned when the model call itself
fails (llm_client.py lines 105-118). -/
def manualReviewFallback (incident : IncidentRow) : AnalysisResult :=
  { summary := "Analysis failed for incident: " ++ pyTake incident.summary_text 100
        ++ ". Manual review required."
  , root_causes := [{ cause := "Automated analysis unavailable"
                    , fixes := ["Manual incident review required", "Check system logs",
                                "Contact on-call engineer"]
                    , rollback := "No automatic fixes available" }]
  , confidence := "low" }

/-- Faithful translation of the decision structure of
`ask_llm(incident, related_items)` (llm_client.py lines 59-134): a failed
chat call returns the manual-review fallback; a successful call is
stripped, sliced between its first and last brace and handed to the JSON
oracle; a parse failure degrades to the truncated raw text with no causes
and low confidence.  (Prompt construction feeds only the collaborator and
does not influence which branch is taken.) -/
def ask_llm (parseJson : String → Option AnalysisResult)
    (callResult : Except String String) (incident : IncidentRow) : AnalysisResult :=
  match callResult with
  | .error _ => manualReviewFallback incident
  | .ok raw =>
    let text := pyStrip raw
    match parseJson (jsonSlice text) with
    | some r => r
    | none => { summary := pyTake text 400, root_causes := [], confidence := "low" }

/-! ## Notification builder and sender (`notifier.py`) -/

/-- Similar-incident entry as the agent assembles it from the
`/semantic-search` response (agent.py lines 71-80): the dict has keys
`memory_id`, `summary`, `labels`, `service`, `incident_type`, `solution`
and `similarity` — notably neither `incident_id` nor `id`. -/
structure RelatedItem where
  memory_id : Int
  summary : String
  labels : List String
  service : Option String
  incident_type : Option String
  solution : Option String
  similarity : Rat
deriving DecidableEq

/-- One button of a Slack action block. -/
structure BtnElement where
  text : String
  value : String
  action_id : String
deriving DecidableEq

/-- Slack message block. -/
inductive Block where
  | sec (text : String)
  | actions (elements : List BtnElement)
deriving DecidableEq

/-- The enumerated root-causes markdown of `build_blocks`, including the
`or "No causes suggested."` fallback for an empty join. -/
def causesMd (root_causes : List RootCause) : String :=
  let lines := root_causes.enum.map (fun p =>
    "*" ++ toString (p.1 + 1) ++ ".* " ++ p.2.cause ++ " - fixes: "
      ++ String.intercalate ", " p.2.fixes)
  let joined := String.intercalate "\n" lines
  if joined = "" then "No causes suggested." else joined

/-- Header section text of `build_blocks`: incident id and summary, plus
team/type lines when the routed sender added them. -/
def incidentHeader (incident : IncidentRow) (ai : AnalysisResult) : String :=
  let team := ai.team_assigned.getD ""
  let ty := ai.incident_type.getD ""
  "*Incident #" ++ toString incident.id ++ "* — " ++ incident.summary_text
    ++ (if team ≠ "" then "\n👥 *Assigned to:* " ++ team else "")
    ++ (if ty ≠ "" then "\n🏷️ *Type:* " ++ pyTitle (pyReplace ty '_' ' ') else "")

/-- One bullet of the previous-similar-incidents section. -/
def similarEntry (r : RelatedItem) : String :=
  let s := r.summary
  let shown := if 60 < s.length then pyTake s 60 ++ "..." else s
  let sol := r.solution.getD ""
  "• *ID " ++ toString r.memory_id ++ "* (similarity: " ++ toString r.similarity
    ++ ") - " ++ shown ++ "\n"
    ++ (if sol ≠ "" then
          "  ✅ *Solution:* " ++ (if 100 < sol.length then pyTake sol 100 ++ "..." else sol) ++ "\n"
        else "  ⚠️ *No solution available*\n")
    ++ "\n"

/-- Previous-similar-incidents section text (top 3 entries). -/
def similarText (similar : List RelatedItem) : String :=
  "*Previous Similar Incidents:*\n" ++ String.join ((similar.take 3).map similarEntry)

/-- Value the action buttons read from a similar-incident dict:
`incident.get('incident_id', incident.get('id', 'N/A'))` where the dict
carries neither key, hence always the `'N/A'` default. -/
def relatedIdValue (_ : RelatedItem) : String := "N/A"

/-- Faithful translation of `build_blocks(incident, ai_result,
similar_incidents)` (notifier.py lines 16-64).  The Python
`for incident in similar_incidents[:3]` loop reuses the name `incident`,
so after a non-empty loop the action block's
`incident.get('incident_id', incident.get('id', 'N/A'))` reads the last
similar item instead of the notified incident. -/
def build_blocks (incident : IncidentRow) (ai : AnalysisResult)
    (similar : List RelatedItem) : List Block :=
  let base := [Block.sec (incidentHeader incident ai),
               Block.sec ("*AI Summary:* " ++ ai.summary),
               Block.sec ("*Root causes & fixes:*\n" ++ causesMd ai.root_causes)]
  let withSimilar :=
    if 0 < similar.length then base ++ [Block.sec (similarText similar)] else base
  let actionValue :=
    if 0 < similar.length then
      match (similar.take 3).getLast? with
      | some r => relatedIdValue r
      | none => toString incident.id
    else toString incident.id
  withSimilar ++ [Block.actions
    [⟨"Acknowledge", actionValue, "ack"⟩,
     ⟨"Request More Info", actionValue, "info"⟩,
     ⟨"Mark as Resolved", actionValue, "resolve"⟩]]

/-- Delivery metadata of a successful `chat_postMessage`. -/
structure SlackResp where
  ts : String
  ok : Bool
deriving DecidableEq

/-- Faithful translation of `send_incident_message(channel, incident,
ai_result, similar_incidents)` (notifier.py lines 66-125).  `deliver` is
the chat collaborator; on success a `slack_messages` row and a
`slack_sent` audit entry are persisted (their own failures are swallowed,
modelled by the `dbUp` flag), on failure a `slack_failed` audit entry is
written, the exception is swallowed and `None` returned. -/
def send_incident_message (deliver : String → Except String SlackResp) (dbUp : Bool)
    (channel : String) (incident : IncidentRow) (ai : AnalysisResult)
    (similar : List RelatedItem) (st : DBState) : Option SlackResp × DBState :=
  let _blocks := build_blocks incident ai similar
  let st1 := { st with trace := st.trace ++ [TraceOp.deliver channel] }
  match deliver channel with
  | .ok resp =>
    let st2 := if dbUp && (incident.id != 0)
      then { st1 with slackMessages := st1.slackMessages ++ [(incident.id, channel)] }
      else st1
    let st3 := (insert_audit_log dbUp st2 (.pint incident.id) (.pstr "system")
      (.pstr "slack_sent")
      [("channel", channel), ("message_ts", resp.ts),
       ("ok", if resp.ok then "True" else "False")]).1
    (some resp, st3)
  | .error e =>
    let st2 := (insert_audit_log dbUp st1 (.pint incident.id) (.pstr "system")
      (.pstr "slack_failed") [("channel", channel), ("error", e)]).1
    (none, st2)

/-- Routing entry: destination channel and owning team. -/
structure RouteInfo where
  slack_channel : String
  team_name : String
deriving DecidableEq

/-- Modelled from the spec: `email_notifier.load_routing_config` is not
under `src/`; per the spec the configuration is a static mapping from
incident type to channel/team with one designated fallback entry. -/
structure RoutingConfig where
  incident_routing : List (String × RouteInfo)
  fallback : RouteInfo
deriving DecidableEq

/-- The dictionary lookup `config['incident_routing'].get(incident_type,
config['fallback'])` of the routed sender. -/
def lookupRoute (cfg : RoutingConfig) (incidentType : String) : RouteInfo :=
  match cfg.incident_routing.lookup incidentType with
  | some r => r
  | none => cfg.fallback

/-- Incident-type resolution of the routed sender: a missing (or falsy)
override is replaced by the classifier collaborator's answer
(`classify_incident_type` lives outside `src/` and is a parameter). -/
def resolveType (classify : IncidentRow → String) (incident : IncidentRow)
    (incidentType : Option String) : String :=
  match incidentType with
  | some t => if t = "" then classify incident else t
  | none => classify incident

/-- Faithful translation of `send_routed_slack_message(incident,
ai_result, similar_incidents, incident_type)` (notifier.py lines
127-172).  `loadCfg` models `load_routing_config()` (an `Except`, since
loading can raise): when it succeeds the routed channel is used and the
enhanced result handed to `send_incident_message` (which never raises);
when the try block raises, the except branch re-loads the configuration
and falls back to the configured fallback channel, giving up when that
reload fails too. -/
def send_routed_slack_message (loadCfg : Except String RoutingConfig)
    (classify : IncidentRow → String) (deliver : String → Except String SlackResp)
    (dbUp : Bool) (incident : IncidentRow) (ai : AnalysisResult)
    (similar : List RelatedItem) (incidentType : Option String) (st : DBState) :
    Option SlackResp × DBState :=
  match loadCfg with
  | .ok cfg =>
    let itype := resolveType classify incident incidentType
    let route := lookupRoute cfg itype
    let enhanced := { ai with team_assigned := some route.team_name,
                              incident_type := some itype }
    send_incident_message deliver dbUp route.slack_channel incident enhanced similar st
  | .error _ =>
    match loadCfg with
    | .ok cfg => send_incident_message deliver dbUp cfg.fallback.slack_channel incident ai similar st
    | .error _ => (none, st)

/-! ## Event consumer and pipeline orchestration (`agent.py`) -/

/-- Message-shape validation of `handle_incident_message` (agent.py lines
18-36): non-dict payloads, a missing `incident_id` key, a value `int()`
rejects, and a non-positive id are all dropped (`none`). -/
def validateMsg (data : PVal) : Option Int :=
  match data with
  | .pdict entries =>
    match entries.lookup "incident_id" with
    | none => none
    | some v =>
      match pyToInt v with
      | none => none
      | some n => if n ≤ 0 then none else some n
  | _ => none

/-- Whether the payload is a Python dict. -/
def isDictV : PVal → Bool
  | .pdict _ => true
  | _ => false

/-- The UPDATE of the memory upsert (agent.py lines 164-168): summary,
labels, service and incident_type are set; the solution column is not
listed and keeps its value. -/
def memoryUpdate (summary : String) (labels : List String) (service : Option String)
    (m : MemoryItem) : MemoryItem :=
  { m with summary := summary, labels := labels, service := service,
           incident_type := "incident" }

/-- The memory upsert of the pipeline (agent.py lines 160-178): an
existing row keyed by the incident id is updated in place, otherwise a
fresh row is inserted with a NULL solution. -/
def upsertMemoryList (mem : List MemoryItem) (key summary : String)
    (labels : List String) (service : Option String) : List MemoryItem :=
  if mem.any (fun m => m.id == key) then
    mem.map (fun m => if m.id == key then memoryUpdate summary labels service m else m)
  else
    mem ++ [{ id := key, summary := summary, labels := labels, service := service,
              incident_type := "incident", model := "text-embedding-3-small",
              dim := 1536, solution := none }]

/-- Service extracted from an incident's evidence blob:
`incident.get('evidence', {}).get('service') if isinstance(..., dict)
else 'unknown'`. -/
def evidenceService : Evidence → Option String
  | .edict s => s
  | _ => some "unknown"

/-- External collaborators of one `handle_incident_message` run: the
similarity retrieval (its own failures already degrade to `[]` inside
agent.py), the analysis outcome (`none` models the falsy-result early
return of `if not ai_result`), the chat transport, the configured
channel, and storage reachability. -/
structure Ext where
  searchRelated : String → List RelatedItem
  aiResult : Option AnalysisResult
  deliver : String → Except String SlackResp
  slackChannel : String
  dbUp : Bool

/-- Faithful translation of `handle_incident_message(data)` (agent.py
lines 14-197): validate the message shape, fetch the incident, retrieve
similar incidents (only when there is summary text), run the analysis,
upsert the memory row, send the notification, set the status to
`"notified"` and append the audit entry carrying the AI summary.  The
whole body is wrapped in a catch-all, so the function is total and every
early exit returns the store untouched beyond the recorded trace. -/
def handle_incident_message (ext : Ext) (data : PVal) (st : DBState) : DBState :=
  match validateMsg data with
  | none => st
  | some incidentId =>
    let st := { st with trace := st.trace ++ [TraceOp.fetch incidentId] }
    match getIncident st incidentId with
    | none => st
    | some incident =>
      let queryText := incident.summary_text
      let st := if queryText ≠ ""
        then { st with trace := st.trace ++ [TraceOp.search] } else st
      let related := if queryText ≠ "" then ext.searchRelated queryText else []
      let st := { st with trace := st.trace ++ [TraceOp.llmCall] }
      match ext.aiResult with
      | none => st
      | some ai =>
        let key := toString incidentId
        let st :=
          if ext.dbUp then
            { st with memory := upsertMemoryList st.memory key incident.summary_text
                        incident.labels (evidenceService incident.evidence),
                      trace := st.trace ++ [TraceOp.memWrite key] }
          else st
        let (_, st) := send_incident_message ext.deliver ext.dbUp ext.slackChannel
          incident ai related st
        let (st, _) := update_incident_status ext.dbUp st (.pint incidentId)
          (.pstr "notified")
        (insert_audit_log ext.dbUp st (.pint incidentId) (.pstr "agent")
          (.pstr "notified") [("ai_summary", ai.summary)]).1

/-! ## Action callbacks (`handlers.py`, the `/slack/actions` route)

FastAPI keeps the first route registered for a path, so the effective
handler is the first `slack_actions` definition (lines 63-168); its
action dispatch after signature and payload validation is modelled
here. -/

/-- Response of the action dispatch: a plain text reply or an
`HTTPException` with a status code. -/
inductive ActionResp where
  | ok (text : String)
  | err (code : Nat) (detail : String)
deriving DecidableEq

/-- Faithful translation of the action dispatch of the effective
`slack_actions` handler (handlers.py lines 109-162), after the header,
signature and incident-id validation has produced a positive
`incidentId` and a user name. -/
def processSlackAction (dbUp : Bool) (st : DBState) (actionId : String)
    (incidentId : Int) (user : String) (solutionText : String) :
    DBState × ActionResp :=
  if actionId = "ack" then
    let (st1, success) := update_incident_status dbUp st (.pint incidentId) (.pstr "acknowledged")
    if success then
      let (st2, _) := insert_audit_log dbUp st1 (.pint incidentId) (.pstr user) (.pstr "acknowledged") []
      (st2, .ok ("Incident " ++ toString incidentId ++ " acknowledged by " ++ user))
    else (st1, .err 500 "Failed to update incident status")
  else if actionId = "info" then
    let (st1, success) := update_incident_status dbUp st (.pint incidentId) (.pstr "needs_info")
    if success then
      let (st2, _) := insert_audit_log dbUp st1 (.pint incidentId) (.pstr user) (.pstr "requested_info") []
      (st2, .ok ("Requested more info for " ++ toString incidentId))
    else (st1, .err 500 "Failed to update incident status")
  else if actionId = "resolve" then
    let (st1, success) := update_incident_status dbUp st (.pint incidentId) (.pstr "resolved")
    if success then
      let (st2, _) := insert_audit_log dbUp st1 (.pint incidentId) (.pstr user) (.pstr "resolved") []
      (st2, .ok ("Incident " ++ toString incidentId ++ " marked resolved by " ++ user))
    else (st1, .err 500 "Failed to update incident status")
  else if actionId = "add_solution" then
    if solutionText = "" then (st, .err 400 "No solution text provided")
    else if dbUp then
      if st.memory.any (fun m => m.id == toString incidentId) then
        let st1 := { st with
          memory := st.memory.map (fun m => if m.id == toString incidentId then
            { m with solution := some solutionText } else m),
          trace := st.trace ++ [TraceOp.memWrite (toString incidentId)] }
        let (st2, _) := insert_audit_log dbUp st1 (.pint incidentId) (.pstr user)
          (.pstr "added_solution") [("solution", solutionText)]
        (st2, .ok ("Solution added to incident " ++ toString incidentId ++ " by " ++ user))
      else (st, .err 404 "Incident not found in memory")
    else (st, .err 500 "Database connection failed")
  else (st, .err 400 ("Unknown action: " ++ actionId))

/-! ## Vector retriever (`retriever_pgvector.py`) -/

/-- Row shape of the `memory_item` similarity query in `search_similar`
(id, summary, labels, service, incident_type, model, dim, distance). -/
structure RetRow where
  memory_id : String
  summary : Option String
  labels : List String
  service : Option String
  incident_type : String
  model : String
  dim : Nat
  distance : Rat
deriving DecidableEq

/-- Faithful translation of `embed_text(text)` (retriever_pgvector.py
lines 50-68): the embedding collaborator's failure is caught and a dummy
all-zero 384-vector returned. -/
def embed_text (impl : Except String (List Rat)) : List Rat :=
  match impl with
  | .ok v => v
  | .error _ => List.replicate 384 0

/-- Faithful translation of `search_similar(query_text, top_k)`
(retriever_pgvector.py lines 73-123): invalid query text returns `[]`,
an invalid `top_k` defaults to 3, a degenerate all-zero embedding
returns `[]`, and any storage error is caught and returns `[]`. -/
def search_similar (impl : Except String (List Rat))
    (dbQuery : Int → Except String (List RetRow)) (queryText topK : PVal) :
    List RetRow :=
  if !truthy queryText || !isInstStr queryText then []
  else
    let k : Int := if !isInstInt topK || pyIntOf topK ≤ 0 then 3 else pyIntOf topK
    let qEmb := embed_text impl
    if qEmb.all (fun x => x == 0) then []
    else
      match dbQuery k with
      | .error _ => []
      | .ok rows => rows

/-! ## Shared helper lemmas -/

/-- Concrete states and collaborators used by the witnesses. -/
def exIncident42 : IncidentRow :=
  { id := 42, summary_text := "Checkout latency spike", labels := ["latency"],
    evidence := .edict (some "checkout"), status := "open",
    created_at := "2024-01-01T00:00:00" }

def exAnalysis : AnalysisResult :=
  { summary := "Probable cause identified", root_causes :=
      [{ cause := "Slow query", fixes := ["Add index"], rollback := "Revert deploy" }],
    confidence := "medium" }

def exRelated : RelatedItem :=
  { memory_id := 7, summary := "Past checkout latency", labels := [],
    service := some "checkout", incident_type := some "incident",
    solution := some "Added index", similarity := 1 }

def exExt : Ext :=
  { searchRelated := fun _ => [], aiResult := none,
    deliver := fun _ => .error "down", slackChannel := "#incident-alerts",
    dbUp := true }

/-- Updating via an id-preserving map keeps `find?` pointed at the image
of the found row. -/
theorem find?_map_ite {α : Type} (p : α → Bool) (f : α → α)
    (hf : ∀ x, p (f x) = p x) (l : List α) (r : α) (h : l.find? p = some r) :
    (l.map (fun x => if p x then f x else x)).find? p = some (f r) := by
  induction l with
  | nil => simp at h
  | cons a t ih =>
    by_cases hpa : p a = true
    · rw [List.find?_cons_of_pos _ hpa] at h
      injection h with h
      subst h
      simp only [List.map_cons, if_pos hpa]
      exact List.find?_cons_of_pos _ (by rw [hf]; exact hpa)
    · rw [List.find?_cons_of_neg _ hpa] at h
      simp only [List.map_cons, if_neg hpa]
      rw [List.find?_cons_of_neg _ hpa]
      exact ih h

/-- An id-preserving conditional map keeps the number of matching rows. -/
theorem length_filter_map_ite {α : Type} (p : α → Bool) (f : α → α)
    (hf : ∀ x, p (f x) = p x) (l : List α) :
    ((l.map (fun x => if p x then f x else x)).filter p).length
      = (l.filter p).length := by
  induction l with
  | nil => rfl
  | cons a t ih =>
    by_cases hpa : p a = true
    · have hfa : p (f a) = true := by rw [hf]; exact hpa
      simp [List.filter_cons, hpa, hfa, ih]
    · have hpa' : p a = false := by simpa using hpa
      have hfa : p (f a) = false := by rw [hf]; exact hpa'
      simp [List.filter_cons, hpa', hfa, ih]

/-- A found element makes the filtered list non-empty. -/
theorem filter_pos_of_find?_some {α : Type} (p : α → Bool) (l : List α) (r : α)
    (h : l.find? p = some r) : 0 < (l.filter p).length := by
  have hm : r ∈ l := List.mem_of_find?_eq_some h
  have hp : p r = true := List.find?_some h
  have : r ∈ l.filter p := List.mem_filter.mpr ⟨hm, hp⟩
  exact List.length_pos.mpr (fun he => by simp [he] at this)

/-- No match: the filtered list is empty. -/
theorem filter_nil_of_find?_none {α : Type} (p : α → Bool) (l : List α)
    (h : l.find? p = none) : l.filter p = [] := by
  rw [List.filter_eq_nil_iff]
  intro a ha
  exact by simpa using List.find?_eq_none.mp h a ha

/-- Python's `any` agrees with the success of `find?`. -/
theorem any_eq_find?_isSome {α : Type} (p : α → Bool) (l : List α) :
    l.any p = (l.find? p).isSome := by
  induction l with
  | nil => rfl
  | cons a t ih =>
    by_cases hpa : p a = true
    · simp [List.any_cons, hpa, List.find?_cons_of_pos _ hpa]
    · simp only [List.any_cons, List.find?_cons_of_neg _ hpa, ih,
        Bool.false_or, hpa]

/-- A validated event id is positive. -/
theorem validateMsg_pos (data : PVal) (i : Int) (h : validateMsg data = some i) :
    0 < i := by
  cases data with
  | pdict entries =>
    simp only [validateMsg] at h
    cases hl : entries.lookup "incident_id" with
    | none => rw [hl] at h; simp at h
    | some v =>
      simp only [hl] at h
      cases hi : pyToInt v with
      | none => simp only [hi] at h; exact absurd h (by simp)
      | some n =>
        simp only [hi] at h
        by_cases hn : n ≤ 0
        · rw [if_pos hn] at h; simp at h
        · rw [if_neg hn] at h
          injection h with h
          omega
  | pint n => simp [validateMsg] at h
  | pbool b => simp [validateMsg] at h
  | pstr s => simp [validateMsg] at h
  | pnone => simp [validateMsg] at h
  | plist l => simp [validateMsg] at h

/-! ## Claim theorems -/

/-- C10: the store mutators `update_incident_status` and
`insert_audit_log` are total boolean-returning functions; an invalid
incident id (not a truthy integer), an invalid status (not a non-empty
string), missing who/action, or a storage failure each yield `False`
with the store untouched. -/
theorem store_mutators_validate (dbUp : Bool) (st st' : DBState)
    (idV statusV whoV actionV : PVal) (details : List (String × String)) (b : Bool) :
    (truthy idV = false ∨ isInstInt idV = false →
      update_incident_status dbUp st idV statusV = (st, false))
  ∧ (truthy statusV = false ∨ isInstStr statusV = false →
      update_incident_status dbUp st idV statusV = (st, false))
  ∧ (dbUp = false → update_incident_status dbUp st idV statusV = (st, false))
  ∧ (update_incident_status dbUp st idV statusV = (st', b) → b = false → st' = st)
  ∧ (truthy idV = false ∨ isInstInt idV = false →
      insert_audit_log dbUp st idV whoV actionV details = (st, false))
  ∧ (truthy whoV = false ∨ truthy actionV = false →
      insert_audit_log dbUp st idV whoV actionV details = (st, false))
  ∧ (dbUp = false → insert_audit_log dbUp st idV whoV actionV details = (st, false))
  ∧ (insert_audit_log dbUp st idV whoV actionV details = (st', b) → b = false → st' = st) := by
  unfold update_incident_status insert_audit_log
  refine ⟨?_, ?_, ?_, ?_, ?_, ?_, ?_, ?_⟩
  · rintro (h | h) <;> simp [h]
  · rintro (h | h) <;> simp [h]
  · intro h; simp [h]
  · intro h hb
    subst hb
    split at h
    · injection h with h1 _; exact h1.symm
    · split at h
      · injection h with h1 _; exact h1.symm
      · split at h
        · injection h with _ h2; exact absurd h2.symm (by simp)
        · injection h with h1 _; exact h1.symm
  · rintro (h | h) <;> simp [h]
  · rintro (h | h) <;> simp [h]
  · intro h; simp [h]
  · intro h hb
    subst hb
    split at h
    · injection h with h1 _; exact h1.symm
    · split at h
      · injection h with h1 _; exact h1.symm
      · split at h
        · injection h with _ h2; exact absurd h2.symm (by simp)
        · injection h with h1 _; exact h1.symm

/-- Witness for C10 at a concrete invalid input. -/
theorem store_mutators_validate_witness :
    update_incident_status true DBState.empty (.pint 0) (.pstr "open")
      = (DBState.empty, false) :=
  (store_mutators_validate true DBState.empty DBState.empty (.pint 0) (.pstr "open")
    (.pstr "u") (.pstr "a") [] false).1 (Or.inl (by decide))

/-- C8: `search_similar` degrades to an empty list when the embedding
collaborator fails (the caught failure produces the all-zero dummy
vector), when the embedding is degenerate all-zero, and when the vector
store errors; being a total Lean function it returns a list on every
input and can raise nothing. -/
theorem search_similar_degrades (impl : Except String (List Rat))
    (dbQuery : Int → Except String (List RetRow)) (q k : PVal) :
    (∀ e, impl = .error e → search_similar impl dbQuery q k = [])
  ∧ ((embed_text impl).all (fun x => x == 0) = true →
      search_similar impl dbQuery q k = [])
  ∧ (∀ e, (∀ n, dbQuery n = .error e) → search_similar impl dbQuery q k = []) := by
  refine ⟨?_, ?_, ?_⟩
  · intro e he
    subst he
    have hz : (embed_text (Except.error e : Except String (List Rat))).all
        (fun x => x == 0) = true := by
      show (List.replicate 384 (0 : Rat)).all (fun x => x == 0) = true
      rw [List.all_eq_true]
      intro x hx
      rw [List.eq_of_mem_replicate hx]
      rfl
    unfold search_similar
    simp [hz]
  · intro hz
    unfold search_similar
    simp [hz]
  · intro e hdb
    unfold search_similar
    simp only [hdb]
    split <;> simp

/-- Witness for C8: a failing embedding collaborator yields `[]`. -/
theorem search_similar_degrades_witness :
    search_similar (.error "model unavailable") (fun _ => .ok [])
      (.pstr "query text") (.pint 3) = [] :=
  (search_similar_degrades (.error "model unavailable") (fun _ => .ok [])
    (.pstr "query text") (.pint 3)).1 "model unavailable" rfl

/-- C4: `ask_llm` is total; a failed model call returns the fixed
manual-review fallback (one root cause "Automated analysis unavailable",
confidence low), and a successful call whose text has no parseable
substring between its first and last brace degrades to the stripped raw
text truncated to 400 characters with no causes and low confidence. -/
theorem ask_llm_fallbacks (parseJson : String → Option AnalysisResult)
    (callResult : Except String String) (incident : IncidentRow) :
    (∀ e, callResult = .error e →
      ask_llm parseJson callResult incident = manualReviewFallback incident
      ∧ (ask_llm parseJson callResult incident).root_causes.map (fun c => c.cause)
          = ["Automated analysis unavailable"]
      ∧ (ask_llm parseJson callResult incident).confidence = "low")
  ∧ (∀ t, callResult = .ok t → parseJson (jsonSlice (pyStrip t)) = none →
      ask_llm parseJson callResult incident =
        { summary := pyTake (pyStrip t) 400, root_causes := [], confidence := "low" }) := by
  constructor
  · intro e he
    subst he
    refine ⟨rfl, rfl, rfl⟩
  · intro t ht hp
    subst ht
    unfold ask_llm
    simp [hp]

/-- Witness for C4 on a brace-free model reply. -/
theorem ask_llm_fallbacks_witness :
    ask_llm (fun _ => none) (.ok "no structured output") exIncident42 =
      { summary := pyTake (pyStrip "no structured output") 400,
        root_causes := [], confidence := "low" } :=
  (ask_llm_fallbacks (fun _ => none) (.ok "no structured output") exIncident42).2
    "no structured output" rfl rfl

/-- C7: the diversity key of the concrete sql-injection example, the
sql/injection family sub-classification, the keyword vocabulary match,
and the `_general` fallback for summaries matching nothing. -/
theorem diversity_key_classification :
    extract_diversity_key "SQL injection via union select" "checkout"
      = "checkout_sql_union"
  ∧ (∀ s sv : String, s ≠ "" → sv ≠ "" →
      (strContains (pyLower s) "sql" || strContains (pyLower s) "injection") = true →
      extract_diversity_key s sv ∈
        [sv ++ "_sql_union", sv ++ "_sql_blind", sv ++ "_sql_time", sv ++ "_sql_generic"])
  ∧ (∀ s sv t : String, s ≠ "" → sv ≠ "" →
      (strContains (pyLower s) "sql" || strContains (pyLower s) "injection") = false →
      keyTerms.find? (fun t => strContains (pyLower s) t) = some t →
      extract_diversity_key s sv = sv ++ "_" ++ t)
  ∧ (∀ s sv : String, s ≠ "" → sv ≠ "" →
      (∀ t ∈ ["sql", "injection"] ++ keyTerms, strContains (pyLower s) t = false) →
      extract_diversity_key s sv = sv ++ "_general") := by
  refine ⟨by decide, ?_, ?_, ?_⟩
  · intro s sv hs hsv hfam
    simp only [extract_diversity_key, if_pos (And.intro hs hsv), hfam, if_true]
    split_ifs <;> simp
  · intro s sv t hs hsv hfam hfind
    simp only [extract_diversity_key, if_pos (And.intro hs hsv), hfam,
      Bool.false_eq_true, if_false, hfind]
  · intro s sv hs hsv hterms
    have hsql : strContains (pyLower s) "sql" = false := hterms "sql" (by simp)
    have hinj : strContains (pyLower s) "injection" = false := hterms "injection" (by simp)
    have hfind : keyTerms.find? (fun t => strContains (pyLower s) t) = none := by
      rw [List.find?_eq_none]
      intro x hx
      simp [hterms x (by simp [hx])]
    simp only [extract_diversity_key, if_pos (And.intro hs hsv), hsql, hinj,
      Bool.or_self, Bool.false_eq_true, if_false, hfind, if_pos hsv]

/-- Witness for C7: a summary matching no keyword resolves to the
service-general bucket. -/
theorem diversity_key_classification_witness :
    extract_diversity_key "strange behaviour observed" "svc" = "svc_general" :=
  diversity_key_classification.2.2.2 "strange behaviour observed" "svc"
    (by decide) (by decide) (by decide)

/-- An invalid message makes the handler return with the store (and its
operation trace) untouched. -/
theorem handle_invalid_noop (ext : Ext) (st : DBState) (data : PVal)
    (h : validateMsg data = none) : handle_incident_message ext data st = st := by
  unfold handle_incident_message
  rw [h]

/-- C2: every malformed event — non-dict payload, missing `incident_id`,
an id `int()` rejects, or a non-positive id — makes
`handle_incident_message` return without any downstream operation (the
state, including the trace of fetches, retrievals, analyses, deliveries
and writes, is unchanged); as a total Lean function it raises nothing. -/
theorem handle_malformed_drops (ext : Ext) (st : DBState) :
    (∀ data, isDictV data = false → handle_incident_message ext data st = st)
  ∧ (∀ entries, entries.lookup "incident_id" = none →
      handle_incident_message ext (.pdict entries) st = st)
  ∧ (∀ entries v, entries.lookup "incident_id" = some v → pyToInt v = none →
      handle_incident_message ext (.pdict entries) st = st)
  ∧ (∀ entries v n, entries.lookup "incident_id" = some v → pyToInt v = some n →
      n ≤ 0 → handle_incident_message ext (.pdict entries) st = st) := by
  refine ⟨?_, ?_, ?_, ?_⟩
  · intro data hd
    apply handle_invalid_noop
    cases data <;> simp_all [isDictV, validateMsg]
  · intro entries hl
    apply handle_invalid_noop
    simp [validateMsg, hl]
  · intro entries v hl hv
    apply handle_invalid_noop
    simp [validateMsg, hl, hv]
  · intro entries v n hl hv hn
    apply handle_invalid_noop
    simp [validateMsg, hl, hv, hn]

/-- Witness for C2 on a non-dict payload. -/
theorem handle_malformed_drops_witness :
    handle_incident_message exExt (.pstr "oops") DBState.empty = DBState.empty :=
  (handle_malformed_drops exExt DBState.empty).1 (.pstr "oops") rfl

/-- C6 (code bug): when at least one similar incident is shown, the
shadowed loop variable makes every action button carry `"N/A"` instead of
the notified incident's id; with no similar incidents the buttons do
carry the id.  Evaluated at incident 42 with one similar item. -/
theorem build_blocks_action_value_bug :
    (build_blocks exIncident42 exAnalysis [exRelated]).getLast? =
      some (Block.actions
        [⟨"Acknowledge", "N/A", "ack"⟩,
         ⟨"Request More Info", "N/A", "info"⟩,
         ⟨"Mark as Resolved", "N/A", "resolve"⟩])
  ∧ (build_blocks exIncident42 exAnalysis []).getLast? =
      some (Block.actions
        [⟨"Acknowledge", "42", "ack"⟩,
         ⟨"Request More Info", "42", "info"⟩,
         ⟨"Mark as Resolved", "42", "resolve"⟩])
  ∧ ("N/A" : String) ≠ toString exIncident42.id := by
  refine ⟨?_, ?_, by decide⟩
  · rfl
  · rfl

/-- Routing configuration used by the C5 scenarios. -/
def cexRoutingCfg : RoutingConfig :=
  { incident_routing := [("xss", { slack_channel := "#xss-channel", team_name := "Security" })]
  , fallback := { slack_channel := "#fallback-alerts", team_name := "General" } }

/-- C5 run with a mapped incident type and a transport that always
fails. -/
def cexC5run : Option SlackResp × DBState :=
  send_routed_slack_message (.ok cexRoutingCfg) (fun _ => "xss")
    (fun _ => .error "transport down") true exIncident42 exAnalysis [] (some "xss")
    DBState.empty

/-- Channels of the outbound delivery attempts recorded in the trace. -/
def deliveries (st : DBState) : List String :=
  st.trace.filterMap (fun op => match op with
    | .deliver c => some c
    | _ => none)

/-- C5 counterexample: a delivery failure on the routed channel produces
the `slack_failed` audit entry and a swallowed `None` result, but no
second delivery attempt — in particular none against the configured
fallback channel, contrary to the claimed retry-once behaviour. -/
theorem routed_send_no_retry_counterexample :
    deliveries cexC5run.2 = ["#xss-channel"]
  ∧ "#fallback-alerts" ∉ deliveries cexC5run.2
  ∧ cexC5run.2.audits.map (fun a => a.action) = ["slack_failed"]
  ∧ cexC5run.1 = none := by
  refine ⟨by decide, by decide, by decide, by decide⟩

/-- C5 (amended): on a delivery failure through the routed entry point
the sender appends one `slack_failed` audit entry with the error and
swallows the exception, making exactly one delivery attempt (no retry);
the fallback channel enters only through routing itself: an unmapped
incident type resolves to the fallback route, and delivery is attempted
on that route's channel. -/
theorem routed_send_failure_behaviour (cfg : RoutingConfig)
    (classify : IncidentRow → String) (deliver : String → Except String SlackResp)
    (incident : IncidentRow) (ai : AnalysisResult) (similar : List RelatedItem)
    (itype : Option String) (st : DBState) (e : String)
    (hid : (incident.id != 0) = true)
    (hfail : deliver (lookupRoute cfg (resolveType classify incident itype)).slack_channel
      = .error e) :
    (send_routed_slack_message (.ok cfg) classify deliver true incident ai similar itype st).1
      = none
  ∧ deliveries (send_routed_slack_message (.ok cfg) classify deliver true incident ai similar itype st).2
      = deliveries st
        ++ [(lookupRoute cfg (resolveType classify incident itype)).slack_channel]
  ∧ (send_routed_slack_message (.ok cfg) classify deliver true incident ai similar itype st).2.audits
      = st.audits ++ [⟨incident.id, "system", "slack_failed",
          [("channel", (lookupRoute cfg (resolveType classify incident itype)).slack_channel),
           ("error", e)]⟩]
  ∧ (cfg.incident_routing.lookup (resolveType classify incident itype) = none →
      lookupRoute cfg (resolveType classify incident itype) = cfg.fallback) := by
  refine ⟨?_, ?_, ?_, ?_⟩
  · simp only [send_routed_slack_message, send_incident_message, hfail]
  · simp only [send_routed_slack_message, send_incident_message, hfail]
    simp [insert_audit_log, truthy, isInstInt, hid, pyIntOf, pyStrOf, deliveries,
      List.filterMap_append]
  · simp only [send_routed_slack_message, send_incident_message, hfail]
    simp [insert_audit_log, truthy, isInstInt, hid, pyIntOf, pyStrOf]
  · intro hnone
    unfold lookupRoute
    rw [hnone]

/-- Witness for C5 (amended) at an unmapped incident type: the single
delivery attempt happens on the fallback channel. -/
theorem routed_send_failure_behaviour_witness :
    deliveries (send_routed_slack_message (.ok cexRoutingCfg) (fun _ => "xss")
      (fun _ => .error "boom") true exIncident42 exAnalysis [] (some "zzz")
      DBState.empty).2 = ["#fallback-alerts"] := by
  have h := routed_send_failure_behaviour cexRoutingCfg (fun _ => "xss")
    (fun _ => .error "boom") exIncident42 exAnalysis [] (some "zzz")
    DBState.empty "boom" (by decide) rfl
  simpa using h.2.1

/-- Status updates keep `find?` pointed at the (updated) found row. -/
theorem find?_setStatus (l : List IncidentRow) (i : Int) (s : String)
    (r : IncidentRow) (h : l.find? (fun x => x.id == i) = some r) :
    (setStatusRows l i s).find? (fun x => x.id == i) = some { r with status := s } :=
  find?_map_ite (fun x => x.id == i) (fun x => { x with status := s })
    (fun _ => rfl) l r h

/-- C9: acknowledging and then resolving the same incident appends
exactly two audit entries ("acknowledged" then "resolved") and performs
the two status writes "acknowledged" then "resolved", in that order,
leaving the row resolved. -/
theorem ack_then_resolve (st : DBState) (i : Int) (u sol : String) (r : IncidentRow)
    (hi : 0 < i) (hu : u ≠ "") (hrow : getIncident st i = some r) :
    ((processSlackAction true (processSlackAction true st "ack" i u sol).1
        "resolve" i u sol).1.audits
      = st.audits ++ [⟨i, u, "acknowledged", []⟩, ⟨i, u, "resolved", []⟩])
  ∧ ((processSlackAction true (processSlackAction true st "ack" i u sol).1
        "resolve" i u sol).1.trace
      = st.trace ++ [TraceOp.statusWrite i "acknowledged",
          TraceOp.auditWrite "acknowledged", TraceOp.statusWrite i "resolved",
          TraceOp.auditWrite "resolved"])
  ∧ statusOf (processSlackAction true st "ack" i u sol).1 i = some "acknowledged"
  ∧ statusOf (processSlackAction true (processSlackAction true st "ack" i u sol).1
        "resolve" i u sol).1 i = some "resolved"
  ∧ (processSlackAction true st "ack" i u sol).2
      = .ok ("Incident " ++ toString i ++ " acknowledged by " ++ u)
  ∧ (processSlackAction true (processSlackAction true st "ack" i u sol).1
        "resolve" i u sol).2
      = .ok ("Incident " ++ toString i ++ " marked resolved by " ++ u) := by
  have hbne : (i != 0) = true := bne_iff_ne.mpr (by omega)
  have hbu : (u != "") = true := bne_iff_ne.mpr hu
  have hf1 := find?_setStatus st.incidents i "acknowledged" r hrow
  have hf2 := find?_setStatus (setStatusRows st.incidents i "acknowledged") i
    "resolved" _ hf1
  refine ⟨?_, ?_, ?_, ?_, ?_, ?_⟩ <;>
    simp [processSlackAction, update_incident_status, insert_audit_log, truthy,
      isInstInt, isInstStr, pyIntOf, pyStrOf, hbne, hbu, statusOf, getIncident,
      hf1, hf2]

/-- Witness for C9 on a one-row store. -/
theorem ack_then_resolve_witness :
    statusOf (processSlackAction true
      (processSlackAction true
        { DBState.empty with incidents := [exIncident42] } "ack" 42 "alice" "").1
      "resolve" 42 "alice" "").1 42 = some "resolved" := by
  have h := ack_then_resolve { DBState.empty with incidents := [exIncident42] }
    42 "alice" "" exIncident42 (by decide) (by decide) (by decide)
  exact h.2.2.2.1

/-- Memory row freshly inserted by a first successful pipeline run. -/
def freshMemoryItem (i : Int) (incident : IncidentRow) : MemoryItem :=
  { id := toString i, summary := incident.summary_text, labels := incident.labels,
    service := evidenceService incident.evidence, incident_type := "incident",
    model := "text-embedding-3-small", dim := 1536, solution := none }

/-- In-place update a successful pipeline run applies to an existing
memory row: summary, labels, service and incident_type change, the
solution column is untouched. -/
def updatedMemoryItem (m : MemoryItem) (incident : IncidentRow) : MemoryItem :=
  memoryUpdate incident.summary_text incident.labels
    (evidenceService incident.evidence) m

/-- C1: a successful pipeline run (valid message, incident found,
analysis returned, delivery succeeded, store reachable) sets the
incident's status to "notified", appends exactly one audit entry with
action "notified" carrying the AI summary (besides the delivery's own
"slack_sent" entry), and upserts exactly one memory row keyed by the
incident id as a string: fresh ids are inserted with a null solution,
existing ids are updated in place with the solution preserved and no
duplicate row created. -/
theorem pipeline_success_effects (ext : Ext) (st : DBState) (data : PVal) (i : Int)
    (incident : IncidentRow) (ai : AnalysisResult) (resp : SlackResp)
    (hval : validateMsg data = some i)
    (hget : getIncident st i = some incident)
    (hai : ext.aiResult = some ai)
    (hok : ext.deliver ext.slackChannel = .ok resp)
    (hdb : ext.dbUp = true)
    (huniq : (st.memory.filter (fun m => m.id == toString i)).length ≤ 1) :
    statusOf (handle_incident_message ext data st) i = some "notified"
  ∧ (handle_incident_message ext data st).audits = st.audits ++
      [⟨i, "system", "slack_sent",
        [("channel", ext.slackChannel), ("message_ts", resp.ts),
         ("ok", if resp.ok then "True" else "False")]⟩,
       ⟨i, "agent", "notified", [("ai_summary", ai.summary)]⟩]
  ∧ ((handle_incident_message ext data st).audits.filter
      (fun a => a.incident_id == i && a.action == "notified")).length
      = (st.audits.filter (fun a => a.incident_id == i && a.action == "notified")).length + 1
  ∧ ((handle_incident_message ext data st).memory.filter
      (fun m => m.id == toString i)).length = 1
  ∧ (st.memory.find? (fun m => m.id == toString i) = none →
      (handle_incident_message ext data st).memory
        = st.memory ++ [freshMemoryItem i incident])
  ∧ (∀ m, st.memory.find? (fun x => x.id == toString i) = some m →
      (handle_incident_message ext data st).memory.find? (fun x => x.id == toString i)
          = some (updatedMemoryItem m incident)
        ∧ (updatedMemoryItem m incident).solution = m.solution
        ∧ (handle_incident_message ext data st).memory.length = st.memory.length) := by
  have hfind : st.incidents.find? (fun r => r.id == i) = some incident := hget
  have hpos := validateMsg_pos data i hval
  have hbne : (i != 0) = true := bne_iff_ne.mpr (by omega)
  have hidEq : incident.id = i := by
    have h1 := List.find?_some hfind
    simpa using h1
  have hidbne : (incident.id != 0) = true := by rw [hidEq]; exact hbne
  have hget' : getIncident { st with trace := st.trace ++ [TraceOp.fetch i] } i
      = some incident := hget
  have hmain : (handle_incident_message ext data st).audits = st.audits ++
      [⟨i, "system", "slack_sent",
        [("channel", ext.slackChannel), ("message_ts", resp.ts),
         ("ok", if resp.ok then "True" else "False")]⟩,
       ⟨i, "agent", "notified", [("ai_summary", ai.summary)]⟩]
    ∧ (handle_incident_message ext data st).incidents
        = setStatusRows st.incidents i "notified"
    ∧ (handle_incident_message ext data st).memory
        = upsertMemoryList st.memory (toString i) incident.summary_text
            incident.labels (evidenceService incident.evidence) := by
    by_cases hq : incident.summary_text ≠ "" <;>
      simp [handle_incident_message, hval, hget', hai, hq, hok, hdb,
        send_incident_message, update_incident_status, insert_audit_log, truthy,
        isInstInt, isInstStr, pyIntOf, pyStrOf, hbne, hidbne, hidEq]
  refine ⟨?_, hmain.1, ?_, ?_, ?_, ?_⟩
  · show ((handle_incident_message ext data st).incidents.find?
      (fun r => r.id == i)).map (fun r => r.status) = some "notified"
    rw [hmain.2.1, find?_setStatus st.incidents i "notified" incident hfind]
    rfl
  · rw [hmain.1]
    simp [List.filter_append]
  · rw [hmain.2.2]
    unfold upsertMemoryList
    by_cases hany : st.memory.any (fun m => m.id == toString i) = true
    · rw [if_pos hany]
      rw [length_filter_map_ite (fun m => m.id == toString i)
        (memoryUpdate incident.summary_text incident.labels
          (evidenceService incident.evidence)) (fun _ => rfl)]
      have hsome : (st.memory.find? (fun m => m.id == toString i)).isSome := by
        rw [← any_eq_find?_isSome]; exact hany
      obtain ⟨m, hm⟩ := Option.isSome_iff_exists.mp hsome
      have := filter_pos_of_find?_some (fun m => m.id == toString i) st.memory m hm
      omega
    · rw [if_neg hany]
      have hnone : st.memory.find? (fun m => m.id == toString i) = none := by
        have h1 : st.memory.any (fun m => m.id == toString i) = false := by
          simpa using hany
        rw [any_eq_find?_isSome] at h1
        exact Option.not_isSome_iff_eq_none.mp (by simp [h1])
      rw [List.filter_append, filter_nil_of_find?_none _ _ hnone]
      simp
  · intro hnone
    rw [hmain.2.2]
    unfold upsertMemoryList
    have h1 : st.memory.any (fun m => m.id == toString i) = false := by
      rw [any_eq_find?_isSome, hnone]; rfl
    rw [h1]
    rfl
  · intro m hm
    have hmap := find?_map_ite (fun x => x.id == toString i)
      (memoryUpdate incident.summary_text incident.labels
        (evidenceService incident.evidence)) (fun _ => rfl) st.memory m hm
    have hany : st.memory.any (fun x => x.id == toString i) = true := by
      rw [any_eq_find?_isSome, hm]; rfl
    refine ⟨?_, rfl, ?_⟩
    · rw [hmain.2.2]
      unfold upsertMemoryList
      rw [hany, if_pos rfl]
      exact hmap
    · rw [hmain.2.2]
      unfold upsertMemoryList
      rw [hany, if_pos rfl]
      exact List.length_map _ _

/-- Witness for C1: a fresh run on incident 42 inserts the memory row
with a null solution and notifies. -/
theorem pipeline_success_effects_witness :
    statusOf (handle_incident_message
      { exExt with aiResult := some exAnalysis, deliver := fun _ => .ok ⟨"1700000000.1", true⟩ }
      (.pdict [("incident_id", .pint 42)])
      { DBState.empty with incidents := [exIncident42] }) 42 = some "notified" := by
  have h := pipeline_success_effects
    { exExt with aiResult := some exAnalysis, deliver := fun _ => .ok ⟨"1700000000.1", true⟩ }
    { DBState.empty with incidents := [exIncident42] }
    (.pdict [("incident_id", .pint 42)]) 42 exIncident42 exAnalysis
    ⟨"1700000000.1", true⟩ (by decide) (by decide) rfl rfl rfl (by decide)
  exact h.1

/-! ## Diversity filter lemmas (C3) -/

/-- Membership in a Python-set insertion. -/
theorem pyAddSet_mem (used : List String) (key k : String) :
    k ∈ pyAddSet used key ↔ k = key ∨ k ∈ used := by
  unfold pyAddSet
  by_cases h : key ∈ used
  · rw [if_pos h]
    constructor
    · exact Or.inr
    · rintro (rfl | hk)
      · exact h
      · exact hk
  · rw [if_neg h]
    exact List.mem_cons

/-- Appending one item adds its key's indicator to every key count. -/
theorem countKeyD_append (l : List DivItem) (x : DivItem) (k : String) :
    countKeyD (l ++ [x]) k = countKeyD l k + (if keyOfItem x == k then 1 else 0) := by
  unfold countKeyD
  rw [List.filter_append]
  by_cases h : (keyOfItem x == k) = true
  · simp [List.filter_cons, h]
  · simp [List.filter_cons, h]

/-- Loop invariant of the admission walk: `used_patterns` holds exactly
the keys of already-admitted items, and every item admitted at or past
position `limit / 2` is the unique admitted item with its key. -/
def DivInv (limit : Nat) (results : List DivItem) (used : List String) : Prop :=
  (∀ k, k ∈ used ↔ 0 < countKeyD results k) ∧
  (∀ x ∈ results.drop (limit / 2), countKeyD results (keyOfItem x) = 1)

/-- The set/count correspondence survives one admission. -/
theorem usedIff_step (results : List DivItem) (used : List String) (x : DivItem)
    (key : String) (hkey : keyOfItem x = key)
    (h1 : ∀ k, k ∈ used ↔ 0 < countKeyD results k) :
    ∀ k, k ∈ pyAddSet used key ↔ 0 < countKeyD (results ++ [x]) k := by
  intro k
  rw [pyAddSet_mem, countKeyD_append, hkey]
  by_cases hk : (key == k) = true
  · have hke : k = key := by
      have := beq_iff_eq.mp hk
      exact this.symm
    rw [if_pos hk]
    constructor
    · intro _; omega
    · intro _; exact Or.inl hke
  · have hkne : k ≠ key := by
      intro he
      exact hk (beq_iff_eq.mpr he.symm)
    rw [if_neg hk]
    constructor
    · rintro (he | hin)
      · exact absurd he hkne
      · have := (h1 k).mp hin; omega
    · intro hpos
      exact Or.inr ((h1 k).mpr (by omega))

/-- The full invariant survives one admission taken under the source's
admission condition. -/
theorem DivInv_step (limit : Nat) (results : List DivItem) (used : List String)
    (x : DivItem) (key : String) (hkey : keyOfItem x = key)
    (hinv : DivInv limit results used)
    (hcase : results.length < limit / 2 ∨ key ∉ used) :
    DivInv limit (results ++ [x]) (pyAddSet used key) := by
  obtain ⟨h1, h2⟩ := hinv
  refine ⟨usedIff_step results used x key hkey h1, ?_⟩
  intro y hy
  by_cases hlen : results.length < limit / 2
  · have hlen2 : (results ++ [x]).length ≤ limit / 2 := by
      simp only [List.length_append, List.length_cons, List.length_nil]
      omega
    rw [List.drop_eq_nil_of_le hlen2] at hy
    cases hy
  · have hnotin : key ∉ used := hcase.resolve_left hlen
    have hx0 : countKeyD results key = 0 := by
      by_contra h
      exact hnotin ((h1 key).mpr (Nat.pos_of_ne_zero h))
    have hsplit : (results ++ [x]).drop (limit / 2)
        = results.drop (limit / 2) ++ [x] :=
      List.drop_append_of_le_length (Nat.le_of_not_lt hlen)
    rw [hsplit] at hy
    rw [countKeyD_append]
    rcases List.mem_append.mp hy with hy1 | hy2
    · have hcy := h2 y hy1
      have hyused : keyOfItem y ∈ used := (h1 _).mpr (by omega)
      have hne : keyOfItem x ≠ keyOfItem y := by
        intro he
        rw [hkey] at he
        exact hnotin (he ▸ hyused)
      rw [if_neg (by simpa using hne)]
      omega
    · have hyx : y = x := by simpa using hy2
      subst hyx
      rw [← hkey] at hx0
      rw [hx0, if_pos (beq_iff_eq.mpr rfl)]

/-- Every item the filter keeps at or past position `limit / 2` is the
unique kept item with its diversity key. -/
theorem diversityGo_unique_suffix (limit : Nat) (rows : List MemRow) :
    ∀ (results : List DivItem) (used : List String), DivInv limit results used →
    ∀ x ∈ (diversityGo limit rows results used).drop (limit / 2),
      countKeyD (diversityGo limit rows results used) (keyOfItem x) = 1 := by
  induction rows with
  | nil =>
    intro results used hinv
    simpa [diversityGo] using hinv.2
  | cons r rest ih =>
    intro results used hinv
    simp only [diversityGo]
    by_cases hstop : limit ≤ results.length
    · rw [if_pos hstop]
      exact hinv.2
    · rw [if_neg hstop]
      by_cases hadm : (extract_diversity_key (r.summary.getD "") (r.service.getD "unknown")
          ∉ used ∨ results.length < limit / 2)
      · rw [if_pos hadm]
        exact ih _ _ (DivInv_step limit results used _ _ rfl hinv (Or.symm hadm))
      · rw [if_neg hadm]
        exact ih _ _ hinv

/-- The filter never keeps more than `limit` items. -/
theorem diversityGo_length_le (limit : Nat) (rows : List MemRow) :
    ∀ (results : List DivItem) (used : List String), results.length ≤ limit →
    (diversityGo limit rows results used).length ≤ limit := by
  induction rows with
  | nil =>
    intro results used h
    simpa [diversityGo] using h
  | cons r rest ih =>
    intro results used h
    simp only [diversityGo]
    by_cases hstop : limit ≤ results.length
    · rw [if_pos hstop]
      exact h
    · rw [if_neg hstop]
      by_cases hadm : (extract_diversity_key (r.summary.getD "") (r.service.getD "unknown")
          ∉ used ∨ results.length < limit / 2)
      · rw [if_pos hadm]
        apply ih
        simp only [List.length_append, List.length_cons, List.length_nil]
        omega
      · rw [if_neg hadm]
        exact ih _ _ h

/-- The source's set-membership admission test agrees with the claim's
per-key running-count reading (`max_per_key = 1`). -/
theorem diversityGo_eq_count (limit : Nat) (rows : List MemRow) :
    ∀ (results : List DivItem) (used : List String),
    (∀ k, k ∈ used ↔ 0 < countKeyD results k) →
    diversityGo limit rows results used = diversityGoCount limit rows results := by
  induction rows with
  | nil => intro results used _; rfl
  | cons r rest ih =>
    intro results used h1
    simp only [diversityGo, diversityGoCount]
    by_cases hstop : limit ≤ results.length
    · rw [if_pos hstop, if_pos hstop]
    · rw [if_neg hstop, if_neg hstop]
      have hcond : (extract_diversity_key (r.summary.getD "") (r.service.getD "unknown")
            ∉ used ∨ results.length < limit / 2)
          ↔ (countKeyD results (extract_diversity_key (r.summary.getD "")
              (r.service.getD "unknown")) < 1 ∨ results.length < limit / 2) := by
        have h2 := h1 (extract_diversity_key (r.summary.getD "") (r.service.getD "unknown"))
        constructor
        · rintro (hni | hl)
          · left
            have : ¬ 0 < countKeyD results (extract_diversity_key (r.summary.getD "")
                (r.service.getD "unknown")) := fun hp => hni (h2.mpr hp)
            omega
          · exact Or.inr hl
        · rintro (hc | hl)
          · left
            intro hin
            have := h2.mp hin
            omega
          · exact Or.inr hl
      by_cases hadm : (extract_diversity_key (r.summary.getD "") (r.service.getD "unknown")
          ∉ used ∨ results.length < limit / 2)
      · rw [if_pos hadm, if_pos (hcond.mp hadm)]
        exact ih _ _ (usedIff_step results used _ _ rfl h1)
      · rw [if_neg hadm, if_neg (fun hc => hadm (hcond.mpr hc))]
        exact ih _ _ h1

/-- C3 (amended): the `/semantic-search` diversity filter returns at
most `limit` items; its set-membership admission test coincides with the
claimed running-count rule (count below `max_per_key = 1`, or result
still below `limit / 2`); and every item admitted once the result
already held `limit / 2` items is the unique result item with its
diversity key.  (Items admitted during the relaxation phase may share a
key, so the cap does not hold of the whole result — see the
counterexample.) -/
theorem semantic_filter_diversity (limit : Nat) (rows : List MemRow) :
    (semanticSearchFilter limit rows).length ≤ limit
  ∧ semanticSearchFilter limit rows = semanticFilterSpec limit rows
  ∧ (∀ x ∈ (semanticSearchFilter limit rows).drop (limit / 2),
      countKeyD (semanticSearchFilter limit rows) (keyOfItem x) = 1) := by
  have base : DivInv limit [] ([] : List String) := by
    constructor
    · intro k
      simp [countKeyD]
    · intro x hx
      simp at hx
  exact ⟨diversityGo_length_le limit rows [] [] (by simp),
         diversityGo_eq_count limit rows [] [] base.1,
         diversityGo_unique_suffix limit rows [] [] base⟩

/-- Three vector-search rows sharing one diversity key. -/
def cexRows3 : List MemRow :=
  [⟨1, some "hello", some "svc"⟩, ⟨2, some "hello", some "svc"⟩,
   ⟨3, some "hello", some "svc"⟩]

/-- C3 counterexample: with `top_k = 4` the relaxation phase admits two
items with the same key, and the final result holds `4 / 2 = 2` items of
which both share the key `"svc_general"` — refuting the claim that once
the result holds at least `top_k / 2` items no more than `max_per_key =
1` admitted items share a key. -/
theorem semantic_filter_claim_counterexample :
    4 / 2 ≤ (semanticSearchFilter 4 cexRows3).length
  ∧ 1 < countKeyD (semanticSearchFilter 4 cexRows3) "svc_general" := by
  refine ⟨by decide, by decide⟩

/-- Witness for C3 (amended) on a two-row input whose second admitted
item sits at position `2 / 2 = 1`. -/
theorem semantic_filter_diversity_witness :
    countKeyD (semanticSearchFilter 2
      [⟨1, some "auth failed", some "a"⟩, ⟨2, some "timeout seen", some "b"⟩])
      (keyOfItem ⟨2, "timeout seen", "b"⟩) = 1 :=
  (semantic_filter_diversity 2
      [⟨1, some "auth failed", some "a"⟩, ⟨2, some "timeout seen", some "b"⟩]).2.2
    ⟨2, "timeout seen", "b"⟩ (by decide)

end Agent
